import Mathlib

/-!
Shallow embedding of the geonav_transform pipeline, translated from
`src/geonav_transform.cpp` (namespace GeonavTransform).

Conventions of the embedding:
* doubles are idealised as elements of an arbitrary field `α`
  (instantiated with `ℚ` for concrete evaluations);
* the geodetic projection `NavsatConversions::LLtoUTM` lives in
  `navsat_conversions.h`, which is not part of the sources here.
  Modelled from the spec: it is a pure, stateless, deterministic function
  `lat -> lon -> (northing, easting)` (spec section 4.1), so the pipeline
  functions take it as an explicit parameter `proj`; the zone string,
  which no covered claim touches, is omitted;
* tf2 rigid transforms are modelled as quaternion + translation, with
  the tf2 composition and inverse formulas (basis transpose equals the
  rotation matrix of the conjugate quaternion, which the model uses);
* IEEE specials are modelled only to the extent the source tests them:
  a `Dbl` is either a numeric value, NaN, or an infinity, and `isnan`
  is true exactly on NaN (as for `std::isnan`); arithmetic on specials
  is not modelled, so theorems about computed values carry finiteness
  hypotheses, and theorems about non-finite inputs only inspect the
  emission structure (which messages are published), never the numbers;
* ROS logging calls are modelled as a list of `Warn` values returned by
  the callback (the ONCE/THROTTLE rate limiting of the logging macros
  is not modelled);
* `POSE_SIZE = 6` and `POSITION_SIZE = 3` are declared in the missing
  header; both values are forced by the source: the covariance loops
  index a 36-entry array with `row * POSE_SIZE + col`, `row, col < POSE_SIZE`,
  and `rot.getRow(rInd)` / `rot_6d(rInd + POSITION_SIZE, _)` require
  `POSITION_SIZE = 3` for a 3x3 basis filling rows 3..5.
-/

open Matrix

namespace Geonav

/-- Quaternion with components named in tf2 constructor order (x, y, z, w). -/
structure Quat (α : Type) where
  x : α
  y : α
  z : α
  w : α
  deriving DecidableEq

/-- Hamilton product, as implemented by tf2 `Quaternion::operator*`. -/
def quatMul {α : Type} [Field α] (q r : Quat α) : Quat α where
  x := q.w * r.x + q.x * r.w + q.y * r.z - q.z * r.y
  y := q.w * r.y + q.y * r.w + q.z * r.x - q.x * r.z
  z := q.w * r.z + q.z * r.w + q.x * r.y - q.y * r.x
  w := q.w * r.w - q.x * r.x - q.y * r.y - q.z * r.z

/-- Quaternion conjugate; for the (unit) rotation quaternions tf2 works
with this is the inverse rotation. -/
def Quat.conj {α : Type} [Field α] (q : Quat α) : Quat α :=
  ⟨-q.x, -q.y, -q.z, q.w⟩

/-- Squared norm (tf2 `length2`). -/
def Quat.length2 {α : Type} [Field α] (q : Quat α) : α :=
  q.x * q.x + q.y * q.y + q.z * q.z + q.w * q.w

/-- Rotation matrix of a quaternion, following tf2
`Matrix3x3::setRotation` (with its `s = 2 / length2` normalisation). -/
def rotMat {α : Type} [Field α] (q : Quat α) : Matrix (Fin 3) (Fin 3) α :=
  let d := q.length2
  let s := 2 / d
  let xs := q.x * s
  let ys := q.y * s
  let zs := q.z * s
  let wx := q.w * xs
  let wy := q.w * ys
  let wz := q.w * zs
  let xx := q.x * xs
  let xy := q.x * ys
  let xz := q.x * zs
  let yy := q.y * ys
  let yz := q.y * zs
  let zz := q.z * zs
  !![1 - (yy + zz), xy - wz, xz + wy;
     xy + wz, 1 - (xx + zz), yz - wx;
     xz - wy, yz + wx, 1 - (xx + yy)]

/-- Rigid transform: tf2 `Transform`, modelled as rotation quaternion
plus translation (tf2 stores the basis matrix `rotMat rot`). -/
structure TF (α : Type) where
  rot : Quat α
  origin : Fin 3 → α

/-- tf2 `Transform::mult`: basis composition and `origin = t1(t2.origin)`. -/
def TF.mult {α : Type} [Field α] (a b : TF α) : TF α where
  rot := quatMul a.rot b.rot
  origin := (rotMat a.rot).mulVec b.origin + a.origin

/-- tf2 `Transform::inverse`: transposed basis (the conjugate rotation)
applied to the negated origin. -/
def TF.inverse {α : Type} [Field α] (a : TF α) : TF α where
  rot := a.rot.conj
  origin := -((rotMat a.rot.conj).mulVec a.origin)

/-- Model of a C++ `double` restricted to the distinctions the source
tests: a numeric value, NaN, or an infinity. -/
inductive Dbl (α : Type) where
  | num (v : α)
  | nan
  | inf
  deriving DecidableEq

/-- `std::isnan`: true exactly on NaN (false on infinities). -/
def Dbl.isnan {α : Type} : Dbl α → Bool
  | .nan => true
  | _ => false

/-- Numeric value of a finite `Dbl` (junk 0 on the specials, which no
finiteness-hypothesised theorem ever reaches). -/
def Dbl.val {α : Type} [Field α] : Dbl α → α
  | .num v => v
  | _ => 0

/-- Incoming `nav_msgs::Odometry` message, with the fields the callback
reads. Position components are `Dbl` so the NaN check can be modelled. -/
structure OdomMsg (α : Type) where
  frame_id : String
  stamp : ℕ
  px : Dbl α
  py : Dbl α
  pz : Dbl α
  ori : Quat α
  pose_cov : Fin 36 → α
  twist_linear : Fin 3 → α
  twist_angular : Fin 3 → α
  twist_cov : Fin 36 → α

/-- Outgoing `nav_msgs::Odometry` message as published (positions are
plain numbers). -/
structure OutOdom (α : Type) where
  frame_id : String
  stamp : ℕ
  pos : Fin 3 → α
  ori : Quat α
  pose_cov : Fin 36 → α
  twist_linear : Fin 3 → α
  twist_angular : Fin 3 → α
  twist_cov : Fin 36 → α

/-- Conditions surfaced through ROS warning logs in `navOdomCallback`. -/
inductive Warn where
  | emptyFrameId
  | badGps
  deriving DecidableEq

/-- Member state of class `GeonavTransform`.
Modelled from the spec: the member declarations live in the missing
header `geonav_transform.h`; the fields below are exactly the members
the translation unit reads or writes. `tf2::Transform` and `bool`
members have indeterminate contents until first assigned (the
constructor initialiser list covers none of the transforms and not
`has_datum_`), which the model expresses by threading explicit junk
values through `initState`. -/
structure GTState (α : Type) where
  nav_frame_id : String
  world_frame_id : String
  base_link_frame_id : String
  zero_altitude : Bool
  has_datum : Bool
  transform_utm2odom : TF α
  transform_utm2odom_inverse : TF α
  transform_utm2nav : TF α
  transform_utm2nav_inverse : TF α
  utm_world_trans_inverse : TF α
  transform_utm2nav_covariance : Matrix (Fin 6) (Fin 6) α
  gps_update_time : ℕ

/-- State after the `GeonavTransform` constructor: the initialiser list
sets the string/flag members; every `tf2::Transform` member and
`has_datum_` stay indeterminate (passed in as junk), and the
`ros::Time` member `gps_update_time_` default-constructs to 0. -/
def initState {α : Type} (j_utm2odom j_utm2odom_inv j_utm2nav j_utm2nav_inv
    j_uwti : TF α) (j_has_datum : Bool) (j_cov : Matrix (Fin 6) (Fin 6) α) :
    GTState α where
  nav_frame_id := ""
  world_frame_id := "odom"
  base_link_frame_id := "base_link"
  zero_altitude := false
  has_datum := j_has_datum
  transform_utm2odom := j_utm2odom
  transform_utm2odom_inverse := j_utm2odom_inv
  transform_utm2nav := j_utm2nav
  transform_utm2nav_inverse := j_utm2nav_inv
  utm_world_trans_inverse := j_uwti
  transform_utm2nav_covariance := j_cov
  gps_update_time := 0

/-- `GeonavTransform::setDatum`: projects the datum latitude/longitude,
stores the utm->odom transform (origin = datum UTM point, rotation = the
supplied quaternion), its inverse, and marks the datum set. The static
transform broadcast and the info logs are not modelled. -/
def setDatum {α : Type} [Field α] (proj : α → α → α × α) (lat lon alt : α)
    (q : Quat α) (s : GTState α) : GTState α :=
  let p := proj lat lon
  let t : TF α := { rot := q, origin := ![p.2, p.1, alt] }
  { s with
    transform_utm2odom := t
    transform_utm2odom_inverse := t.inverse
    has_datum := true }

/-- Quaternion produced by `tf2::Quaternion::setRPY(0, 0, yaw)`:
`(x, y, z, w) = (0, 0, sin(yaw/2), cos(yaw/2))`. The trigonometric
functions are external (`math.h`), so the half-angle cosine and sine are
taken as parameters. -/
def yawQuat {α : Type} [Field α] (halfCos halfSin : α) : Quat α :=
  ⟨0, 0, halfSin, halfCos⟩

/-- Datum phase of `GeonavTransform::run`: the configured yaw is turned
into a quaternion with `setRPY(0.0, 0.0, datum_yaw)` and `setDatum` is
called with altitude 0 before the odometry subscriber is created. -/
def runDatumPhase {α : Type} [Field α] (proj : α → α → α × α)
    (lat lon halfCos halfSin : α) (s : GTState α) : GTState α :=
  setDatum proj lat lon 0 (yawQuat halfCos halfSin) s

/-- Read the 6x6 covariance out of the message array, mirroring the
populate loop `transform_utm2nav_covariance_(row, col) =
msg->pose.covariance[row * POSE_SIZE + col]`. -/
def covFromMsg {α : Type} (c : Fin 36 → α) : Matrix (Fin 6) (Fin 6) α :=
  fun r co => c ⟨6 * r.1 + co.1, by have hr := r.isLt; have hc := co.isLt; omega⟩

/-- The 6x6 rotation operator built in the callback: `rot_6d.setIdentity()`
followed by the fill loop placing the 3x3 matrix on rows 0..2 (columns
0..2) and rows 3..5 (columns 3..5); entries the loop does not touch keep
their identity-matrix value. -/
def rot_6d {α : Type} [Field α] (rot : Matrix (Fin 3) (Fin 3) α) :
    Matrix (Fin 6) (Fin 6) α :=
  fun i j =>
    if hi : (i : ℕ) < 3 then
      if hj : (j : ℕ) < 3 then rot ⟨i, hi⟩ ⟨j, hj⟩
      else (1 : Matrix (Fin 6) (Fin 6) α) i j
    else
      if hj : 3 ≤ (j : ℕ) then
        rot ⟨(i : ℕ) - 3, by have := i.isLt; omega⟩
            ⟨(j : ℕ) - 3, by have := j.isLt; omega⟩
      else (1 : Matrix (Fin 6) (Fin 6) α) i j

/-- Covariance rotation as computed on line 241:
`rot_6d * covariance * rot_6d.transpose()`. -/
def rotateCovariance {α : Type} [Field α] (cov : Matrix (Fin 6) (Fin 6) α)
    (rot : Matrix (Fin 3) (Fin 3) α) : Matrix (Fin 6) (Fin 6) α :=
  rot_6d rot * cov * (rot_6d rot)ᵀ

/-- Index sequence of a `for (i = 0; i < POSE_SIZE; ++i)` loop. -/
def loopIdx : List (Fin 6) :=
  [⟨0, by omega⟩, ⟨1, by omega⟩, ⟨2, by omega⟩, ⟨3, by omega⟩, ⟨4, by omega⟩,
   ⟨5, by omega⟩]

/-- Copy-out loop for the published pose covariance, exactly as written:
`nav_in_utm.pose.covariance[POSITION_SIZE * i + j] = cov(i, j)` for
`i, j` in 0..POSE_SIZE-1, over a freshly value-initialised (all-zero)
message array; later iterations overwrite earlier ones. -/
def writePoseCovariance {α : Type} [Field α] (M : Matrix (Fin 6) (Fin 6) α) :
    Fin 36 → α :=
  loopIdx.foldl
    (fun acc i =>
      loopIdx.foldl
        (fun acc2 j =>
          Function.update acc2
            ⟨3 * i.1 + j.1, by have hi := i.isLt; have hj := j.isLt; omega⟩
            (M i j))
        acc)
    (fun _ => 0)

/-- Altitude zeroing applied to a published position:
`position.z = (zero_altitude ? 0.0 : position.z)`. -/
def zposFix {α : Type} [Field α] (b : Bool) (v : Fin 3 → α) : Fin 3 → α :=
  fun i => if i = 2 ∧ b = true then 0 else v i

/-- `GeonavTransform::navOdomCallback`. Returns the updated member
state, the pair of published messages (utm topic first, then odom) or
`none` when the sample is dropped, and the surfaced warnings. -/
def navOdomCallback {α : Type} [Field α] (proj : α → α → α × α)
    (msg : OdomMsg α) (s : GTState α) :
    GTState α × Option (OutOdom α × OutOdom α) × List Warn :=
  let s1 := { s with nav_frame_id := msg.frame_id }
  let warn1 : List Warn := if msg.frame_id = "" then [.emptyFrameId] else []
  let good_gps : Bool := !msg.px.isnan && !msg.py.isnan && !msg.pz.isnan
  if good_gps then
    let p := proj msg.py.val msg.px.val
    let utmX := p.2
    let utmY := p.1
    let t_utm2nav : TF α := { rot := msg.ori, origin := ![utmX, utmY, msg.pz.val] }
    let covIn := covFromMsg msg.pose_cov
    let rot := rotMat s1.utm_world_trans_inverse.rot
    let cov2 := rotateCovariance covIn rot
    let s2 := { s1 with
      transform_utm2nav := t_utm2nav
      transform_utm2nav_inverse := t_utm2nav.inverse
      transform_utm2nav_covariance := cov2 }
    let nav_in_utm : OutOdom α := {
      frame_id := "utm"
      stamp := s1.gps_update_time
      pos := zposFix s1.zero_altitude t_utm2nav.origin
      ori := msg.ori
      pose_cov := writePoseCovariance cov2
      twist_linear := msg.twist_linear
      twist_angular := msg.twist_angular
      twist_cov := msg.twist_cov }
    let t_odom2nav := TF.mult s1.transform_utm2odom_inverse t_utm2nav
    let nav_in_odom : OutOdom α := { nav_in_utm with
      frame_id := s1.world_frame_id
      stamp := s1.gps_update_time
      pos := zposFix s1.zero_altitude t_odom2nav.origin
      ori := t_odom2nav.rot }
    (s2, some (nav_in_utm, nav_in_odom), warn1)
  else
    (s1, none, warn1 ++ [.badGps])

/-! Concrete fixtures over `ℚ` used by the closed evaluation theorems
and witnesses. -/

/-- Identity quaternion, components (x, y, z, w) = (0, 0, 0, 1). -/
def idQ : Quat ℚ := ⟨0, 0, 0, 1⟩

/-- Quaternion produced by `setRPY(0, 0, pi)`: (x, y, z, w) = (0, 0, 1, 0). -/
def qYawPi : Quat ℚ := ⟨0, 0, 1, 0⟩

/-- Identity rigid transform; used as one explicit choice for the
indeterminate (never-assigned) transform members. -/
def idTF : TF ℚ := ⟨idQ, ![0, 0, 0]⟩

/-- Concrete projection for evaluations: (northing, easting) = (lat, lon).
Every universal theorem below holds for all projection functions; the
closed evaluations fix this one. -/
def projEx : ℚ → ℚ → ℚ × ℚ := fun la lo => (la, lo)

/-- Constructor state with the indeterminate members all filled with
identity transforms, `false`, and the zero matrix. -/
def s0Ex : GTState ℚ := initState idTF idTF idTF idTF idTF false 0

/-- State after `setDatum(0, 0, 0, qYawPi)` from `s0Ex`. -/
def sDatumPi : GTState ℚ := setDatum projEx 0 0 0 qYawPi s0Ex

/-- Placeholder message for the `getD` accessors. -/
def dummyOut : OutOdom ℚ :=
  ⟨"", 0, ![0, 0, 0], ⟨0, 0, 0, 1⟩, fun _ => 0, ![0, 0, 0], ![0, 0, 0], fun _ => 0⟩

/-- First (utm topic) message published by a callback result. -/
def utmOut (r : GTState ℚ × Option (OutOdom ℚ × OutOdom ℚ) × List Warn) :
    OutOdom ℚ :=
  (r.2.1.getD (dummyOut, dummyOut)).1

/-- Second (odom topic) message published by a callback result. -/
def odomOut (r : GTState ℚ × Option (OutOdom ℚ × OutOdom ℚ) × List Warn) :
    OutOdom ℚ :=
  (r.2.1.getD (dummyOut, dummyOut)).2

/-- Message fixture: finite position, identity orientation, covariance
with a single 1 at flat index 2 (matrix entry (0, 2)), zero twist. -/
def msgC1 : OdomMsg ℚ where
  frame_id := "nav"
  stamp := 7
  px := .num 1
  py := .num 2
  pz := .num 3
  ori := idQ
  pose_cov := fun k => if k.1 = 2 then 1 else 0
  twist_linear := ![0, 0, 0]
  twist_angular := ![0, 0, 0]
  twist_cov := fun _ => 0

/-- Message fixture with pairwise distinct covariance entries:
flat entry k holds the value k. -/
def msgC2 : OdomMsg ℚ where
  frame_id := "nav"
  stamp := 3
  px := .num 1
  py := .num 2
  pz := .num 3
  ori := idQ
  pose_cov := fun k => (k.1 : ℚ)
  twist_linear := ![0, 0, 0]
  twist_angular := ![0, 0, 0]
  twist_cov := fun _ => 0

/-- Message fixture one metre east of the (0, 0) datum (longitude is
`position.x`), identity orientation. -/
def msgC3 : OdomMsg ℚ where
  frame_id := "nav"
  stamp := 0
  px := .num 1
  py := .num 0
  pz := .num 0
  ori := idQ
  pose_cov := fun _ => 0
  twist_linear := ![0, 0, 0]
  twist_angular := ![0, 0, 0]
  twist_cov := fun _ => 0

/-- Message fixture at the datum itself, identity orientation,
distinguishable stamp. -/
def msgC8 : OdomMsg ℚ where
  frame_id := "nav"
  stamp := 5
  px := .num 0
  py := .num 0
  pz := .num 0
  ori := idQ
  pose_cov := fun _ => 0
  twist_linear := ![1, 2, 3]
  twist_angular := ![4, 5, 6]
  twist_cov := fun k => (k.1 : ℚ)

/-- Message fixture with a NaN x coordinate. -/
def msgNaN : OdomMsg ℚ := { msgC8 with px := .nan }

/-- Message fixture with an infinite x coordinate (not NaN). -/
def msgInf : OdomMsg ℚ := { msgC8 with px := .inf }

/-- Datum phase of `run` with yaw 0: `setRPY(0, 0, 0)` has half-angle
cosine 1 and sine 0. -/
def sYaw0 : GTState ℚ := runDatumPhase projEx 0 0 1 0 s0Ex

/-- Datum phase of `run` with yaw pi: half-angle cosine 0 and sine 1. -/
def sYawPi : GTState ℚ := runDatumPhase projEx 0 0 0 1 s0Ex

/-- The utm->nav transform the callback builds from a message:
origin is (easting, northing, altitude) of the projected position
(latitude read from `position.y`, longitude from `position.x`),
rotation is the message orientation. -/
def navTF {α : Type} [Field α] (proj : α → α → α × α) (msg : OdomMsg α) : TF α where
  rot := msg.ori
  origin := ![(proj msg.py.val msg.px.val).2, (proj msg.py.val msg.px.val).1,
    msg.pz.val]

/-- The utm->odom transform `setDatum proj lat lon 0 q` stores. -/
def datumTF {α : Type} [Field α] (proj : α → α → α × α) (lat lon : α)
    (q : Quat α) : TF α where
  rot := q
  origin := ![(proj lat lon).2, (proj lat lon).1, 0]

/-- Specification predicate for the world-frame leg of the callback
(claim C4, amended): the odom-topic message shares the utm-topic
message covariance, stamp, and the input twist verbatim; the utm-topic
message keeps the input orientation, while the odom-topic orientation is
the datum-inverse rotation composed with the input orientation (the
whole pose is overwritten from the composed transform). -/
def worldLegSpec {α : Type} [Field α] (proj : α → α → α × α) (msg : OdomMsg α)
    (s : GTState α) : Prop :=
  ∃ u o : OutOdom α,
    (navOdomCallback proj msg s).2.1 = some (u, o)
    ∧ o.pose_cov = u.pose_cov
    ∧ o.twist_linear = msg.twist_linear
    ∧ o.twist_angular = msg.twist_angular
    ∧ o.twist_cov = msg.twist_cov
    ∧ o.stamp = u.stamp
    ∧ u.ori = msg.ori
    ∧ o.ori = quatMul s.transform_utm2odom_inverse.rot msg.ori

/-- Specification predicate for claim C5: the world-frame output pose is
the composition of the inverse of the datum transform stored by
`setDatum` with the utm->nav transform of the sample; when the datum
quaternion is a pure yaw (`setRPY(0, 0, yaw)`, as every call in `run`
produces) and the sample sits at the datum latitude/longitude, the
world-frame position is exactly (0, 0, altitude). -/
def datumCompositionSpec {α : Type} [Field α] (proj : α → α → α × α)
    (lat lon : α) (q : Quat α) (s0 : GTState α) (msg : OdomMsg α) : Prop :=
  ∃ u o : OutOdom α,
    (navOdomCallback proj msg (setDatum proj lat lon 0 q s0)).2.1 = some (u, o)
    ∧ o.pos = (TF.mult (TF.inverse (datumTF proj lat lon q)) (navTF proj msg)).origin
    ∧ o.ori = (TF.mult (TF.inverse (datumTF proj lat lon q)) (navTF proj msg)).rot
    ∧ (∀ halfCos halfSin : α, q = yawQuat halfCos halfSin →
        msg.px = Dbl.num lon → msg.py = Dbl.num lat →
        o.pos = ![0, 0, msg.pz.val])

/-- Specification predicate for claim C6 (amended): a NaN position makes
the callback publish nothing, surface the bad-GPS condition, leave the
datum state untouched, and keep processing later good samples. -/
def droppedSampleSpec {α : Type} [Field α] (proj : α → α → α × α)
    (msg : OdomMsg α) (s : GTState α) : Prop :=
  (navOdomCallback proj msg s).2.1 = none
  ∧ Warn.badGps ∈ (navOdomCallback proj msg s).2.2
  ∧ (navOdomCallback proj msg s).1.transform_utm2odom = s.transform_utm2odom
  ∧ (navOdomCallback proj msg s).1.transform_utm2odom_inverse
      = s.transform_utm2odom_inverse
  ∧ (navOdomCallback proj msg s).1.utm_world_trans_inverse
      = s.utm_world_trans_inverse
  ∧ (navOdomCallback proj msg s).1.has_datum = s.has_datum
  ∧ ∀ msg2 : OdomMsg α, msg2.px.isnan = false → msg2.py.isnan = false →
      msg2.pz.isnan = false →
      ((navOdomCallback proj msg2 (navOdomCallback proj msg s).1).2.1).isSome = true

/-- Specification predicate for claim C7 (amended): the callback has no
datum guard at all — with `has_datum` still false it publishes both
messages and surfaces no error — while `run` orders `setDatum` before
the subscription, leaving the datum flag set for every later callback. -/
def preDatumSpec {α : Type} [Field α] (proj : α → α → α × α) (msg : OdomMsg α)
    (s : GTState α) : Prop :=
  ((navOdomCallback proj msg s).2.1).isSome = true
  ∧ Warn.badGps ∉ (navOdomCallback proj msg s).2.2
  ∧ ∀ (proj2 : α → α → α × α) (lat lon halfCos halfSin : α) (s2 : GTState α),
      (runDatumPhase proj2 lat lon halfCos halfSin s2).has_datum = true

/-- Specification predicate for claim C10: the utm-topic easting is the
second (easting) component of the projection applied to `position.y` as
latitude and `position.x` as longitude; the northing is its first
component. -/
def latLonOrderSpec {α : Type} [Field α] (proj : α → α → α × α)
    (msg : OdomMsg α) (s : GTState α) : Prop :=
  ∃ u o : OutOdom α,
    (navOdomCallback proj msg s).2.1 = some (u, o)
    ∧ u.pos 0 = (proj msg.py.val msg.px.val).2
    ∧ u.pos 1 = (proj msg.py.val msg.px.val).1

/-- Specification predicate for claim C9: structure of the 6x6 rotation
operator (the 3x3 rotation on both diagonal blocks, zero cross blocks),
the similarity-transform shape of the covariance rotation, preservation
of symmetry, and equality of all characteristic-polynomial values (hence
of the eigenvalues) for an orthonormal rotation. -/
def covRotationSpec {α : Type} [Field α] (R : Matrix (Fin 3) (Fin 3) α)
    (cov : Matrix (Fin 6) (Fin 6) α) : Prop :=
  (∀ i j : Fin 6, ((i : ℕ) < 3 ∧ 3 ≤ (j : ℕ)) ∨ (3 ≤ (i : ℕ) ∧ (j : ℕ) < 3) →
      rot_6d R i j = 0)
  ∧ (∀ i j : Fin 3,
      rot_6d R ⟨i.1, by have := i.isLt; omega⟩ ⟨j.1, by have := j.isLt; omega⟩
        = R i j)
  ∧ (∀ i j : Fin 3,
      rot_6d R ⟨i.1 + 3, by have := i.isLt; omega⟩
        ⟨j.1 + 3, by have := j.isLt; omega⟩ = R i j)
  ∧ rotateCovariance cov R = rot_6d R * cov * (rot_6d R)ᵀ
  ∧ (rotateCovariance cov R)ᵀ = rotateCovariance cov R
  ∧ ∀ μ : α, (rotateCovariance cov R - μ • 1).det = (cov - μ • 1).det

/-! Helper lemmas used to evaluate the embedding at concrete inputs. -/

/-- The rotation matrix of the identity quaternion is the identity. -/
lemma rotMat_one {α : Type} [Field α] : rotMat (⟨0, 0, 0, 1⟩ : Quat α) = 1 := by
  ext i j
  fin_cases i <;> fin_cases j <;>
    norm_num [rotMat, Quat.length2, Matrix.one_apply, Fin.ext_iff]

/-- The 6x6 operator built from the 3x3 identity is the 6x6 identity. -/
lemma rot_6d_one {α : Type} [Field α] :
    rot_6d (1 : Matrix (Fin 3) (Fin 3) α) = 1 := by
  ext i j
  fin_cases i <;> fin_cases j <;> simp [rot_6d, Matrix.one_apply]

/-- Rotating a covariance by the identity leaves it unchanged. -/
lemma rotateCovariance_one {α : Type} [Field α] (cov : Matrix (Fin 6) (Fin 6) α) :
    rotateCovariance cov (1 : Matrix (Fin 3) (Fin 3) α) = cov := by
  simp [rotateCovariance, rot_6d_one]

/-- Rotation matrix of the conjugate of the pi-yaw quaternion:
a half-turn about the z axis. -/
lemma rotMat_qYawPi_conj :
    rotMat (Quat.conj qYawPi) = Matrix.diagonal ![-1, -1, 1] := by
  ext i j
  fin_cases i <;> fin_cases j <;>
    norm_num [rotMat, Quat.conj, qYawPi, Quat.length2, Matrix.diagonal, Fin.ext_iff]

/-- The 6x6 operator built from the half-turn diagonal. -/
lemma rot_6d_diagPi {α : Type} [Field α] :
    rot_6d (Matrix.diagonal ![-1, -1, 1] : Matrix (Fin 3) (Fin 3) α) =
      Matrix.diagonal ![-1, -1, 1, -1, -1, 1] := by
  ext i j
  fin_cases i <;> fin_cases j <;>
    norm_num [rot_6d, Matrix.diagonal, Matrix.one_apply, Fin.ext_iff]

/-- Rotation matrix of the pi-yaw quaternion itself: also a half-turn
about the z axis. -/
lemma rotMat_qYawPi : rotMat qYawPi = Matrix.diagonal ![-1, -1, 1] := by
  ext i j
  fin_cases i <;> fin_cases j <;>
    norm_num [rotMat, qYawPi, Quat.length2, Matrix.diagonal, Fin.ext_iff]

/-- Conjugating the identity quaternion gives it back. -/
lemma conj_idQuat {α : Type} [Field α] :
    Quat.conj (⟨0, 0, 0, 1⟩ : Quat α) = ⟨0, 0, 0, 1⟩ := by
  simp [Quat.conj]

/-- The 6x6 operator is the block-diagonal matrix with two copies of the
3x3 rotation, reindexed along `finSumFinEquiv`. -/
lemma rot_6d_eq_blocks {α : Type} [Field α] (R : Matrix (Fin 3) (Fin 3) α) :
    rot_6d R = (Matrix.fromBlocks R 0 0 R).submatrix
      (finSumFinEquiv (m := 3) (n := 3)).symm
      (finSumFinEquiv (m := 3) (n := 3)).symm := by
  ext i j
  fin_cases i <;> fin_cases j <;> rfl

/-- Transposing the 6x6 operator transposes the 3x3 rotation. -/
lemma rot_6d_transpose {α : Type} [Field α] (R : Matrix (Fin 3) (Fin 3) α) :
    (rot_6d R)ᵀ = rot_6d Rᵀ := by
  rw [rot_6d_eq_blocks, rot_6d_eq_blocks, Matrix.transpose_submatrix,
    Matrix.fromBlocks_transpose]
  simp

/-- The 6x6 operator is multiplicative in the 3x3 rotation. -/
lemma rot_6d_mul {α : Type} [Field α] (R S : Matrix (Fin 3) (Fin 3) α) :
    rot_6d R * rot_6d S = rot_6d (R * S) := by
  rw [rot_6d_eq_blocks R, rot_6d_eq_blocks S, rot_6d_eq_blocks (R * S),
    Matrix.submatrix_mul_equiv, Matrix.fromBlocks_multiply]
  simp

/-- Altitude zeroing is the identity when the flag is off. -/
lemma zposFix_false {α : Type} [Field α] (v : Fin 3 → α) :
    zposFix false v = v := by
  funext i
  simp [zposFix]

/-! Claim theorems. -/

/-- C9 (confirmed): the covariance rotation builds the 6x6 operator
block-diagonally — the same 3x3 rotation on the position and orientation
diagonal blocks, zero cross blocks — and computes
`cov2 = rot_6d * cov * rot_6d.transpose`; for a symmetric input and an
orthonormal rotation the result is symmetric and every value of its
characteristic polynomial agrees with the values of the input matrix, so the eigenvalue
multisets coincide (exactly, in the idealised arithmetic). -/
theorem covariance_rotation_similarity {α : Type} [Field α]
    (R : Matrix (Fin 3) (Fin 3) α) (cov : Matrix (Fin 6) (Fin 6) α)
    (hsym : covᵀ = cov) (horth : Rᵀ * R = 1) : covRotationSpec R cov := by
  have ht : (rot_6d R)ᵀ * rot_6d R = 1 := by
    rw [rot_6d_transpose, rot_6d_mul, horth, rot_6d_one]
  have hmul : rot_6d R * (rot_6d R)ᵀ = 1 := Matrix.mul_eq_one_comm.mp ht
  refine ⟨?_, ?_, ?_, rfl, ?_, ?_⟩
  · intro i j h
    fin_cases i <;> fin_cases j <;> first | rfl | (exfalso; revert h; decide)
  · intro i j
    fin_cases i <;> fin_cases j <;> rfl
  · intro i j
    fin_cases i <;> fin_cases j <;> rfl
  · simp only [rotateCovariance]
    rw [Matrix.transpose_mul, Matrix.transpose_mul, Matrix.transpose_transpose,
      hsym, Matrix.mul_assoc]
  · intro μ
    have h2 : rot_6d R * (μ • 1) * (rot_6d R)ᵀ
        = μ • (1 : Matrix (Fin 6) (Fin 6) α) := by
      rw [Matrix.mul_smul, Matrix.mul_one, Matrix.smul_mul, hmul]
    have key : rotateCovariance cov R - μ • 1
        = rot_6d R * (cov - μ • 1) * (rot_6d R)ᵀ := by
      rw [Matrix.mul_sub, Matrix.sub_mul, h2, rotateCovariance]
    rw [key, Matrix.det_mul, Matrix.det_mul]
    have hdet : (rot_6d R).det * ((rot_6d R)ᵀ).det = 1 := by
      rw [← Matrix.det_mul, hmul, Matrix.det_one]
    rw [mul_right_comm, hdet, one_mul]

/-- Witness for C9 at the identity rotation and identity covariance. -/
theorem covariance_rotation_similarity_witness :
    ((1 : Matrix (Fin 6) (Fin 6) ℚ)ᵀ = 1
      ∧ (1 : Matrix (Fin 3) (Fin 3) ℚ)ᵀ * 1 = 1)
    ∧ covRotationSpec (1 : Matrix (Fin 3) (Fin 3) ℚ)
        (1 : Matrix (Fin 6) (Fin 6) ℚ) :=
  ⟨⟨by simp, by simp⟩,
    covariance_rotation_similarity 1 1 (by simp) (by simp)⟩

/-- C1 (code_bug, evaluation at the failing input): after `setDatum`
with a pi-yaw datum rotation (and junk identity contents for the
never-assigned member `utm_world_trans_inverse_`), the stored
rotated covariance keeps entry (0, 2) equal to 1 — it was rotated with
the rotation of the junk member — whereas rotating with the inverse of the
datum rotation stored by `setDatum`, as the claim prescribes, yields -1
at that entry. -/
theorem datum_covariance_rotation_check :
    (navOdomCallback projEx msgC1 sDatumPi).1.transform_utm2nav_covariance 0 2 = 1
    ∧ rotateCovariance (covFromMsg msgC1.pose_cov)
        (rotMat sDatumPi.transform_utm2odom_inverse.rot) 0 2 = -1 := by
  constructor
  · have h1 : sDatumPi.utm_world_trans_inverse.rot = (⟨0, 0, 0, 1⟩ : Quat ℚ) := rfl
    simp [navOdomCallback, Dbl.isnan, msgC1, h1, rotMat_one, rotateCovariance_one,
      covFromMsg]
  · have h1 : sDatumPi.transform_utm2odom_inverse.rot = Quat.conj qYawPi := rfl
    rw [h1, rotMat_qYawPi_conj]
    simp [rotateCovariance, rot_6d_diagPi, Matrix.diagonal_transpose,
      Matrix.diagonal_mul, Matrix.mul_diagonal, covFromMsg, msgC1]

/-- C2 (code_bug, evaluation at the failing input): the published utm
covariance array is written at flat index `POSITION_SIZE * i + j`
(that is 3 i + j), not row-major `6 i + j`: with the rotated
matrix M here having entry (i, j) = 6 i + j, published entry 6 holds
M(2, 0) = 12 instead of the row-major M(1, 0) = 6, and published entry
35 is never written and keeps its initial 0 instead of M(5, 5) = 35. -/
theorem covariance_writeback_check :
    (utmOut (navOdomCallback projEx msgC2 sDatumPi)).pose_cov ⟨6, by norm_num⟩ = 12
    ∧ (navOdomCallback projEx msgC2 sDatumPi).1.transform_utm2nav_covariance
        ⟨1, by norm_num⟩ ⟨0, by norm_num⟩ = 6
    ∧ (navOdomCallback projEx msgC2 sDatumPi).1.transform_utm2nav_covariance
        ⟨2, by norm_num⟩ ⟨0, by norm_num⟩ = 12
    ∧ (utmOut (navOdomCallback projEx msgC2 sDatumPi)).pose_cov ⟨35, by norm_num⟩ = 0
    ∧ (navOdomCallback projEx msgC2 sDatumPi).1.transform_utm2nav_covariance
        ⟨5, by norm_num⟩ ⟨5, by norm_num⟩ = 35 := by
  have h1 : sDatumPi.utm_world_trans_inverse.rot = (⟨0, 0, 0, 1⟩ : Quat ℚ) := rfl
  refine ⟨?_, ?_, ?_, ?_, ?_⟩ <;>
    norm_num [navOdomCallback, Dbl.isnan, msgC2, h1, rotMat_one,
      rotateCovariance_one, utmOut, covFromMsg, writePoseCovariance, loopIdx,
      Function.update_apply, Fin.ext_iff]

/-- C3 (code_bug, evaluation at the failing input): two datum
configurations identical except for the yaw (0 versus pi) store
different utm->odom transforms — the (0, 0) entry of the stored rotation
is 1 versus -1 — and make the pipeline publish different world-frame
positions for the same sample one metre east of the datum (x component 1
versus -1), even though the source logs that the datum yaw is ignored. -/
theorem datum_yaw_effect_check :
    rotMat sYaw0.transform_utm2odom.rot ⟨0, by norm_num⟩ ⟨0, by norm_num⟩ = 1
    ∧ rotMat sYawPi.transform_utm2odom.rot ⟨0, by norm_num⟩ ⟨0, by norm_num⟩ = -1
    ∧ (odomOut (navOdomCallback projEx msgC3 sYaw0)).pos 0 = 1
    ∧ (odomOut (navOdomCallback projEx msgC3 sYawPi)).pos 0 = -1 := by
  have e0 : sYaw0.transform_utm2odom.rot = (⟨0, 0, 0, 1⟩ : Quat ℚ) := rfl
  have e1 : sYawPi.transform_utm2odom.rot = qYawPi := rfl
  refine ⟨?_, ?_, ?_, ?_⟩
  · rw [e0, rotMat_one]
    simp [Matrix.one_apply]
  · rw [e1, rotMat_qYawPi]
    norm_num [Matrix.diagonal, Fin.ext_iff]
  · have egoal : (odomOut (navOdomCallback projEx msgC3 sYaw0)).pos 0
        = zposFix false
            ((TF.mult (TF.inverse ⟨⟨0, 0, 0, 1⟩, ![0, 0, 0]⟩)
              ⟨idQ, ![1, 0, 0]⟩).origin) 0 := rfl
    rw [egoal]
    norm_num [TF.mult, TF.inverse, conj_idQuat, rotMat_one, Matrix.one_mulVec,
      zposFix, Fin.ext_iff]
  · have egoal : (odomOut (navOdomCallback projEx msgC3 sYawPi)).pos 0
        = zposFix false
            ((TF.mult (TF.inverse ⟨qYawPi, ![0, 0, 0]⟩)
              ⟨idQ, ![1, 0, 0]⟩).origin) 0 := rfl
    rw [egoal]
    norm_num [TF.mult, TF.inverse, rotMat_qYawPi_conj, Matrix.mulVec_diagonal,
      zposFix, Fin.ext_iff]

/-- C8 (code_bug, evaluation at the failing input): for an input sample
with timestamp 5, both published messages carry timestamp 0 — the
member `gps_update_time_` is never assigned anywhere and keeps its
default-constructed `ros::Time` value — not the value 5 of the input. (The two
outputs do agree with each other.) -/
theorem output_stamp_check :
    (utmOut (navOdomCallback projEx msgC8 sDatumPi)).stamp = 0
    ∧ (odomOut (navOdomCallback projEx msgC8 sDatumPi)).stamp = 0
    ∧ msgC8.stamp = 5 :=
  ⟨rfl, rfl, rfl⟩

/-- C4 (counterexample): with a pi-yaw datum rotation and an
identity-orientation input sample, the orientation of the world-frame output
is the composed rotation, a half-turn (rotation-matrix entry (0, 0) is
-1), not the original identity orientation of the sample (entry 1): the
world-frame leg overwrites the orientation, so more than the position
differs from the utm-frame sample. -/
theorem world_orientation_not_original :
    rotMat ((odomOut (navOdomCallback projEx msgC8 sDatumPi)).ori)
      ⟨0, by norm_num⟩ ⟨0, by norm_num⟩ = -1
    ∧ rotMat msgC8.ori ⟨0, by norm_num⟩ ⟨0, by norm_num⟩ = 1 := by
  have e : (odomOut (navOdomCallback projEx msgC8 sDatumPi)).ori
      = quatMul (Quat.conj qYawPi) idQ := rfl
  have e2 : msgC8.ori = (⟨0, 0, 0, 1⟩ : Quat ℚ) := rfl
  constructor
  · rw [e]
    norm_num [quatMul, Quat.conj, qYawPi, idQ, rotMat, Quat.length2, Fin.ext_iff]
  · rw [e2, rotMat_one]
    simp [Matrix.one_apply]

/-- C4 (amended): the world-frame output shares the utm-frame
covariance (not independently re-rotated), timestamp, and the incoming
twist and twist covariance verbatim; the utm-frame output keeps the
original orientation, but the orientation of the world-frame output is the
stored datum-inverse rotation composed with the sample orientation — the
whole pose, not just the position, comes from the composed transform. -/
theorem world_leg_shares_covariance_and_twist {α : Type} [Field α]
    (proj : α → α → α × α) (msg : OdomMsg α) (s : GTState α)
    (hx : msg.px.isnan = false) (hy : msg.py.isnan = false)
    (hz : msg.pz.isnan = false) : worldLegSpec proj msg s := by
  simp only [worldLegSpec, navOdomCallback, hx, hy, hz, Bool.not_false,
    Bool.and_self, if_true]
  exact ⟨_, _, rfl, rfl, rfl, rfl, rfl, rfl, rfl, rfl⟩

/-- Witness for C4 (amended) at a concrete sample and datum. -/
theorem world_leg_shares_covariance_and_twist_witness :
    (msgC8.px.isnan = false ∧ msgC8.py.isnan = false ∧ msgC8.pz.isnan = false)
    ∧ worldLegSpec projEx msgC8 sDatumPi :=
  ⟨⟨rfl, rfl, rfl⟩,
    world_leg_shares_covariance_and_twist projEx msgC8 sDatumPi rfl rfl rfl⟩

/-- C5 (confirmed): the world-frame output pose is exactly the
composition of the inverse of the datum transform stored by `setDatum`
with the utm->nav transform of the sample, and — for the pure-yaw datum
quaternions `run` constructs — a sample at the datum
latitude/longitude comes out at world position (0, 0, altitude) exactly
(the idealised arithmetic has no projection error), assuming the default
`zero_altitude = false` configuration. -/
theorem world_pose_composition {α : Type} [Field α] (proj : α → α → α × α)
    (lat lon : α) (q : Quat α) (s0 : GTState α) (msg : OdomMsg α)
    (hx : msg.px.isnan = false) (hy : msg.py.isnan = false)
    (hz : msg.pz.isnan = false) (h0 : s0.zero_altitude = false) :
    datumCompositionSpec proj lat lon q s0 msg := by
  simp only [datumCompositionSpec, navOdomCallback, setDatum, hx, hy, hz,
    Bool.not_false, Bool.and_self, if_true]
  refine ⟨_, _, rfl, ?_, ?_, ?_⟩
  · rw [h0, zposFix_false]
    rfl
  · rfl
  · intro hc hs hq hpx hpy
    rw [h0, zposFix_false]
    subst hq
    funext i
    fin_cases i <;>
      simp [TF.mult, TF.inverse, datumTF, navTF, yawQuat, Quat.conj, rotMat,
        Quat.length2, Matrix.mulVec, dotProduct, Fin.sum_univ_three, hpx, hpy,
        Dbl.val] <;>
      ring

/-- Witness for C5 at a concrete datum and sample. -/
theorem world_pose_composition_witness :
    (msgC2.px.isnan = false ∧ msgC2.py.isnan = false ∧ msgC2.pz.isnan = false
      ∧ s0Ex.zero_altitude = false)
    ∧ datumCompositionSpec projEx 1 2 qYawPi s0Ex msgC2 :=
  ⟨⟨rfl, rfl, rfl, rfl⟩,
    world_pose_composition projEx 1 2 qYawPi s0Ex msgC2 rfl rfl rfl rfl⟩

/-- C6 (counterexample): an input whose x position is infinite — a
non-finite value that is not NaN — is NOT dropped: the callback still
publishes both messages, so the claim that any non-finite (NaN or
infinite) position yields zero output samples fails on this input. -/
theorem infinite_position_still_published :
    msgInf.px = Dbl.inf
    ∧ ((navOdomCallback projEx msgInf sDatumPi).2.1).isSome = true :=
  ⟨rfl, rfl⟩

/-- C6 (amended): a NaN in any position coordinate makes the callback
publish nothing for that input, surface the bad-GPS condition, leave the
datum state (stored transforms, never-assigned member, datum flag)
unchanged, and continue: any later sample with finite position is still
published. Infinities are not checked. -/
theorem nan_position_dropped {α : Type} [Field α] (proj : α → α → α × α)
    (msg : OdomMsg α) (s : GTState α)
    (h : msg.px.isnan = true ∨ msg.py.isnan = true ∨ msg.pz.isnan = true) :
    droppedSampleSpec proj msg s := by
  have hg : (!msg.px.isnan && !msg.py.isnan && !msg.pz.isnan) = false := by
    rcases h with h | h | h <;> simp [h]
  refine ⟨?_, ?_, ?_, ?_, ?_, ?_, ?_⟩
  · simp [navOdomCallback, hg]
  · simp [navOdomCallback, hg]
  · simp [navOdomCallback, hg]
  · simp [navOdomCallback, hg]
  · simp [navOdomCallback, hg]
  · simp [navOdomCallback, hg]
  · intro m h1 h2 h3
    simp [navOdomCallback, hg, h1, h2, h3]

/-- Witness for C6 (amended) at a NaN input. -/
theorem nan_position_dropped_witness :
    (msgNaN.px.isnan = true) ∧ droppedSampleSpec projEx msgNaN sDatumPi :=
  ⟨rfl, nan_position_dropped projEx msgNaN sDatumPi (Or.inl rfl)⟩

/-- C7 (counterexample): with the datum never set (fresh constructor
state, datum flag false), a good sample is still converted and both
messages are published — no datum-not-set failure exists in the
callback. -/
theorem pre_datum_callback_still_published :
    s0Ex.has_datum = false
    ∧ ((navOdomCallback projEx msgC3 s0Ex).2.1).isSome = true :=
  ⟨rfl, rfl⟩

/-- C7 (amended): the callback performs no datum guard whatsoever: even
with the datum flag false it publishes both messages and surfaces no
error condition; pre-datum ordering is enforced only by `run`, whose
datum phase always completes `setDatum` (leaving the flag set) before
the subscription is created. -/
theorem no_datum_check_in_callback {α : Type} [Field α] (proj : α → α → α × α)
    (msg : OdomMsg α) (s : GTState α) (hd : s.has_datum = false)
    (hx : msg.px.isnan = false) (hy : msg.py.isnan = false)
    (hz : msg.pz.isnan = false) : preDatumSpec proj msg s := by
  refine ⟨?_, ?_, ?_⟩
  · simp [navOdomCallback, hx, hy, hz]
  · simp [navOdomCallback, hx, hy, hz]
  · intro proj2 lat lon hc hs s2
    rfl

/-- Witness for C7 (amended) at the fresh constructor state. -/
theorem no_datum_check_in_callback_witness :
    (s0Ex.has_datum = false ∧ msgC8.px.isnan = false ∧ msgC8.py.isnan = false
      ∧ msgC8.pz.isnan = false)
    ∧ preDatumSpec projEx msgC8 s0Ex :=
  ⟨⟨rfl, rfl, rfl, rfl⟩,
    no_datum_check_in_callback projEx msgC8 s0Ex rfl rfl rfl rfl⟩

/-- C10 (confirmed): for every projection function, the published
utm-frame easting (position x) is the easting component of the
projection applied with `position.y` as latitude and `position.x` as
longitude, and the northing (position y) is its northing component —
the callback passes `(msg.position.y, msg.position.x)` in that order. -/
theorem lat_lon_argument_order {α : Type} [Field α] (proj : α → α → α × α)
    (msg : OdomMsg α) (s : GTState α)
    (hx : msg.px.isnan = false) (hy : msg.py.isnan = false)
    (hz : msg.pz.isnan = false) : latLonOrderSpec proj msg s := by
  simp only [latLonOrderSpec, navOdomCallback, hx, hy, hz, Bool.not_false,
    Bool.and_self, if_true]
  refine ⟨_, _, rfl, ?_, ?_⟩
  · simp [zposFix, show (0 : Fin 3) ≠ 2 from by decide]
  · simp [zposFix, show (1 : Fin 3) ≠ 2 from by decide]

/-- Witness for C10 at a concrete sample whose latitude and longitude
differ, making the argument order observable. -/
theorem lat_lon_argument_order_witness :
    (msgC2.px.isnan = false ∧ msgC2.py.isnan = false ∧ msgC2.pz.isnan = false)
    ∧ latLonOrderSpec projEx msgC2 sDatumPi :=
  ⟨⟨rfl, rfl, rfl⟩, lat_lon_argument_order projEx msgC2 sDatumPi rfl rfl rfl⟩

end Geonav
